import Mathlib

/-!
Shallow embedding of the DocFides parsing service (parsing-service/app):
the type classifier (detector.py), the language heuristic (language.py),
the spreadsheet reader (xlsx_parser.py) and the parsing orchestration
pipeline (parser.py).  External collaborators (OCR engines, Tika, camelot,
img2table, the PDF rasterizer, the DOCX XML table walk) are modelled as
oracle inputs carrying exactly the dictionary shapes the Python code
consumes; everything the claims are about is translated operation by
operation from the source.
-/

namespace DocFides

/-! ## String helpers mirroring Python primitives -/

/-- Python sep.join(xs). -/
def pyJoin (sep : String) : List String → String
  | [] => ""
  | [a] => a
  | a :: b :: rest => a ++ sep ++ pyJoin sep (b :: rest)

/-- Python str.lower restricted to ASCII plus the uppercase forms of the
diacritics used by the language heuristic (language.py scans lowercase
sets over text.lower()). -/
def pyLowerChar (c : Char) : Char :=
  if c.isUpper then Char.ofNat (c.toNat + 32)
  else if c = 'Ă' then 'ă' else if c = 'Â' then 'â' else if c = 'Î' then 'î'
  else if c = 'Ș' then 'ș' else if c = 'Ț' then 'ț'
  else if c = 'À' then 'à' else if c = 'Æ' then 'æ' else if c = 'Ç' then 'ç'
  else if c = 'É' then 'é' else if c = 'È' then 'è' else if c = 'Ê' then 'ê'
  else if c = 'Ë' then 'ë' else if c = 'Ï' then 'ï' else if c = 'Ô' then 'ô'
  else if c = 'Ù' then 'ù' else if c = 'Û' then 'û' else if c = 'Ü' then 'ü'
  else if c = 'Ÿ' then 'ÿ' else if c = 'Œ' then 'œ'
  else if c = 'Ä' then 'ä' else if c = 'Ö' then 'ö'
  else c

/-- Python str.lower over a whole string (restricted as in pyLowerChar). -/
def pyLower (s : String) : String := ⟨s.data.map pyLowerChar⟩

/-- Python str.isspace for the ASCII whitespace characters Python strips. -/
def pyIsSpace (c : Char) : Bool :=
  c = ' ' ∨ c = '\t' ∨ c = '\n' ∨ c = '\r' ∨ c = '\x0b' ∨ c = '\x0c'

/-- Python str.strip (no argument): drop leading and trailing whitespace. -/
def pyStrip (s : String) : String :=
  ⟨((s.data.dropWhile pyIsSpace).reverse.dropWhile pyIsSpace).reverse⟩

/-- Decidable list-prefix test. -/
def isPrefixList [DecidableEq α] : List α → List α → Bool
  | [], _ => true
  | _ :: _, [] => false
  | a :: as, b :: bs => if a = b then isPrefixList as bs else false

/-- Decidable list-infix test: Python's needle-in-haystack containment. -/
def isInfixList [DecidableEq α] (w : List α) : List α → Bool
  | [] => w.isEmpty
  | b :: bs => isPrefixList w (b :: bs) || isInfixList w bs

/-- Python needle in haystack for strings. -/
def pyInStr (needle hay : String) : Bool := isInfixList needle.data hay.data

/-- Bytes of an ASCII string, for the byte-literal markers in detector.py. -/
def strBytes (s : String) : List Nat := s.data.map Char.toNat

/-! ## language.py -/

/-- Romanian-specific diacritics (language.py ro_chars). -/
def roChars : List Char := "ăâîșț".data

/-- French-specific characters (language.py fr_chars). -/
def frChars : List Char := "àâæçéèêëîïôùûüÿœ".data

/-- German-specific characters (language.py de_chars). -/
def deChars : List Char := "äöüß".data

/-- Romanian keyword list (language.py ro_keywords, duplicate entry kept). -/
def roKeywords : List String :=
  ["conform", "societatea", "contract", "beneficiar",
   "proiect", "conform", "anul", "executant", "cerere",
   "emis", "semnat", "pentru", "acest"]

/-- Python max(..., key=score) over an association list: the first entry
with the (strictly) maximal value wins, scanning left to right. -/
def maxKey (best : String × Nat) : List (String × Nat) → String × Nat
  | [] => best
  | p :: rest => maxKey (if p.2 > best.2 then p else best) rest

/-- language.py detect_language: diacritic counts (5 points each), Romanian
keyword substring hits (3 points each), English fixed at 0, winner by
first-maximal scan over ron, fra, deu, eng; winners scoring below 3 are
overridden to Romanian. -/
def detect_language (text : String) : Option String :=
  if text = "" ∨ (pyStrip text).length < 20 then none
  else
    let textLower := pyLower text
    let roCount := textLower.data.countP (fun c => roChars.contains c)
    let frCount := textLower.data.countP (fun c => frChars.contains c)
    let deCount := textLower.data.countP (fun c => deChars.contains c)
    let roKeywordCount := roKeywords.countP (fun w => pyInStr w textLower)
    let best := maxKey ("ron", roCount * 5 + roKeywordCount * 3)
      [("fra", frCount * 5), ("deu", deCount * 5), ("eng", 0)]
    if best.2 < 3 then some "ron" else some best.1

/-! ## detector.py -/

/-- detector.py DocumentType dataclass (category kept as a string tag,
exactly as in the source). -/
structure DocumentType where
  category : String
  mime_type : String
  extension : String
  has_text : Bool := false
deriving DecidableEq

/-- detector.py IMAGE_EXTENSIONS. -/
def IMAGE_EXTENSIONS : List String := [".png", ".jpg", ".jpeg", ".tiff", ".tif"]

/-- detector.py PDF_EXTENSIONS. -/
def PDF_EXTENSIONS : List String := [".pdf"]

/-- detector.py DOCX_EXTENSIONS. -/
def DOCX_EXTENSIONS : List String := [".docx"]

/-- detector.py XLSX_EXTENSIONS. -/
def XLSX_EXTENSIONS : List String := [".xlsx", ".xls"]

/-- The four byte-literal markers scanned by _pdf_has_selectable_text. -/
def textMarkers : List (List Nat) :=
  [strBytes "/Type /Page", strBytes "BT", strBytes "ET", strBytes "/Font"]

/-- detector.py _pdf_has_selectable_text: count the markers occurring in the
first 50000 content bytes; at least 2 means selectable text. -/
def _pdf_has_selectable_text (content : List Nat) : Bool :=
  let window := content.take 50000
  let marker_count :=
    (textMarkers.map (fun m => if isInfixList m window then 1 else 0)).sum
  decide (2 ≤ marker_count)

/-- Characters of the filename after its last dot (Python
filename.rsplit(".", 1)[-1] when a dot is present). -/
def afterLastDot (s : String) : String :=
  ⟨(s.data.reverse.takeWhile (fun c => ¬ (c = '.'))).reverse⟩

/-- The extension expression of detect_document_type: a dot plus the
lowercased text after the filename's last dot, or empty without a dot. -/
def fileExt (filename : String) : String :=
  if filename.data.contains '.'
  then "." ++ pyLower (afterLastDot filename) else ""

/-- detector.py detect_document_type.  mimeGuess stands for the stdlib call
mimetypes.guess_type(filename)[0], an external lookup table. -/
def detect_document_type (content : List Nat) (filename : String)
    (content_type : String) (mimeGuess : Option String) : DocumentType :=
  let ext := fileExt filename
  let mime := if content_type ≠ "" then content_type
    else mimeGuess.getD "application/octet-stream"
  if IMAGE_EXTENSIONS.contains ext then
    { category := "image", mime_type := mime, extension := ext }
  else if PDF_EXTENSIONS.contains ext then
    let has_text := _pdf_has_selectable_text content
    { category := if has_text then "pdf_native" else "pdf_scanned",
      mime_type := mime, extension := ext, has_text := has_text }
  else if DOCX_EXTENSIONS.contains ext then
    { category := "docx", mime_type := mime, extension := ext, has_text := true }
  else if XLSX_EXTENSIONS.contains ext then
    { category := "xlsx", mime_type := mime, extension := ext, has_text := true }
  else
    { category := "unknown", mime_type := mime, extension := ext }

/-! ## models.py -/

/-- models.py BoundingBox (floats modelled as rationals). -/
structure BoundingBox where
  x : ℚ
  y : ℚ
  w : ℚ
  h : ℚ
deriving DecidableEq

/-- models.py MergedCell. -/
structure MergedCell where
  row : Int
  col : Int
  row_span : Int
  col_span : Int
deriving DecidableEq

/-- models.py TableData. -/
structure TableData where
  headers : List String
  rows : List (List String)
  merged_cells : List MergedCell := []
  confidence : ℚ
deriving DecidableEq

/-- An ExtractionBlock content payload: either a text string or the dumped
table dict (models.py ExtractionBlock.content is str or dict). -/
inductive BlockContent where
  | text (s : String)
  | table (t : TableData)
deriving DecidableEq

/-- models.py ExtractionBlock.  uuid4 ids are opaque randomness outside the
model; every id is rendered by the fixed placeholder string. -/
structure ExtractionBlock where
  id : String
  type : String
  content : BlockContent
  source : String
  confidence : ℚ
  page : Int
  position : BoundingBox
  warnings : List String := []
deriving DecidableEq

/-- models.py ParseResponse.  processing_time_ms is wall-clock time, outside
the functional model, and rendered as 0. -/
structure ParseResponse where
  blocks : List ExtractionBlock
  raw_text : String
  tables : List TableData
  overall_confidence : ℚ
  language : Option String := none
  page_count : Int
  processing_time_ms : Int
deriving DecidableEq

/-! ## Collaborator result shapes (ocr.py, tika_client.py, pdf_utils.py) -/

/-- The dict shape both run_tesseract and run_easyocr_fallback return
(ocr.py): text, confidence, optional language key, source tag, warnings. -/
structure OcrResult where
  text : String
  confidence : ℚ
  language : Option String := none
  source : String
  warnings : List String := []
deriving DecidableEq

/-- The dict extract_text_with_tika returns (tika_client.py), as consumed by
parser.py through .get("page_count", 1). -/
structure TikaResult where
  text : String
  page_count : Option Int := none
deriving DecidableEq

/-- One dict produced by extract_tables_from_native_pdf (pdf_utils.py), as
consumed by parser.py through .get with defaults 85.0 and 1. -/
structure CamelotTable where
  headers : List String
  rows : List (List String)
  confidence : Option ℚ := none
  page : Option Int := none
deriving DecidableEq

/-! ## xlsx_parser.py -/

/-- An openpyxl cell value as seen by _cell_to_str: None, a string, a float
(rational) or an int. -/
inductive CellValue where
  | cnone
  | cstr (s : String)
  | cfloat (q : ℚ)
  | cint (n : Int)
deriving DecidableEq

/-- xlsx_parser.py _cell_to_str: None becomes empty, integral floats drop
the decimal point, everything else is stringified. -/
def _cell_to_str : CellValue → String
  | .cnone => ""
  | .cstr s => s
  | .cfloat q => if q.den = 1 then toString q.num else toString q
  | .cint n => toString n

/-- One openpyxl merged-cell range (1-based bounds, as in the library). -/
structure MergeRange where
  min_row : Int
  max_row : Int
  min_col : Int
  max_col : Int
deriving DecidableEq

/-- One worksheet as the openpyxl collaborator hands it to parse_xlsx: its
name, its value rows (empty list models a sheet skipped by the max_row /
max_column / empty all_rows guards) and its merged ranges. -/
structure Sheet where
  name : String
  rows : List (List CellValue)
  merged : List MergeRange
deriving DecidableEq

/-- The dict parse_xlsx returns: tables, raw text, page_count key (absent on
the error path) and error key (absent on the success path). -/
structure XlsxResult where
  tables : List TableData
  raw_text : String
  page_count : Option Int := none
  error : Option String := none
deriving DecidableEq

/-- The TableData built from one processed sheet (first row of all_rows as
headers, remaining rows as data, merged ranges shifted to 0-based counts,
confidence fixed at 98). -/
def sheetTable (s : Sheet) : TableData :=
  let all_rows := s.rows.map (fun r => r.map _cell_to_str)
  { headers := all_rows.headD [],
    rows := all_rows.tail,
    merged_cells := s.merged.map (fun m =>
      { row := m.min_row - 1, col := m.min_col - 1,
        row_span := m.max_row - m.min_row + 1,
        col_span := m.max_col - m.min_col + 1 }),
    confidence := 98 }

/-- The raw-text lines one processed sheet contributes: the sheet header
line followed by one tab-joined line per row. -/
def sheetLines (s : Sheet) : List String :=
  ("--- Sheet: " ++ s.name ++ " ---") ::
    s.rows.map (fun r => pyJoin "\t" (r.map _cell_to_str))

/-- The sheet loop of parse_xlsx: accumulate tables and raw-text lines over
the workbook's sheets in order, skipping sheets with no rows. -/
def xlsxSheetsFold : List Sheet → List TableData × List String
  | [] => ([], [])
  | s :: rest =>
    if s.rows.isEmpty then xlsxSheetsFold rest
    else
      let acc := xlsxSheetsFold rest
      (sheetTable s :: acc.1, sheetLines s ++ acc.2)

/-- xlsx_parser.py parse_xlsx.  The workbook argument is the openpyxl
collaborator outcome: an exception message, or the sheet list; an
exception yields the error dict, success yields tables, joined raw text
and page_count equal to the number of tables. -/
def parse_xlsx (wb : Except String (List Sheet)) : XlsxResult :=
  match wb with
  | .error e =>
    { tables := [], raw_text := "[Excel parse error: " ++ e ++ "]",
      page_count := none, error := some e }
  | .ok sheets =>
    let acc := xlsxSheetsFold sheets
    { tables := acc.1, raw_text := pyJoin "\n" acc.2,
      page_count := some acc.1.length, error := none }

/-! ## parser.py strategies -/

/-- The full-page bounding box every block in parser.py is given. -/
def fullBox : BoundingBox := { x := 0, y := 0, w := 1, h := 1 }

/-- Collaborator outcomes for one OCR attempt together with the tables the
image table extractor would report: what run_tesseract (on the
preprocessed bytes), run_easyocr_fallback (on the raw bytes) and
extract_tables_from_image would return for this image. -/
structure ImageEnv where
  tess : OcrResult
  easy : OcrResult
  imgTables : List TableData
deriving DecidableEq

/-- Collaborator outcomes for one rasterized scanned-PDF page (tesseract,
easyocr, img2table), same shape as for a standalone image. -/
structure PageEnv where
  tess : OcrResult
  easy : OcrResult
  imgTables : List TableData
deriving DecidableEq

/-- Collaborator outcomes for the pdf-native strategy: Tika's result and
camelot's table dicts. -/
structure PdfNativeEnv where
  tika : TikaResult
  camelot : List CamelotTable
deriving DecidableEq

/-- Collaborator outcomes for the docx strategy: Tika's result and the
outcome of the _extract_docx_tables XML walk (confidence-97 tables, or []
when the walk failed). -/
structure DocxEnv where
  tika : TikaResult
  docxTables : List TableData
deriving DecidableEq

/-- The table block the image and scanned-pdf strategies append for one
extracted table (source img2table). -/
def imgTableBlock (page : Int) (t : TableData) : ExtractionBlock :=
  { id := "uuid", type := "table", content := .table t,
    source := "img2table", confidence := t.confidence,
    page := page, position := fullBox }

/-- Output of _parse_image, instrumented with the OCR dict ocr_result
refers to after the fallback branch and the number of
run_easyocr_fallback invocations the control flow performed. -/
structure ImageOut where
  blocks : List ExtractionBlock
  tables : List TableData
  raw_text : String
  language : Option String
  ocrUsed : OcrResult
  easyCalls : Nat
deriving DecidableEq

/-- parser.py _parse_image: preprocess, primary OCR, language from the
primary text, confidence fallback, one text block plus one table block
per extracted table.  Note the source computes language before the
fallback branch runs. -/
def _parse_image (env : ImageEnv) : ImageOut :=
  let ocr0 := env.tess
  let language := detect_language ocr0.text <|> ocr0.language
  let step :=
    if ocr0.confidence < 70 then
      let easy := env.easy
      if easy.confidence > ocr0.confidence then (easy.text, easy, 1)
      else (ocr0.text, ocr0, 1)
    else (ocr0.text, ocr0, 0)
  let raw_text := step.1
  let ocr_result := step.2.1
  let textBlock : ExtractionBlock :=
    { id := "uuid", type := "text", content := .text raw_text,
      source := ocr_result.source, confidence := ocr_result.confidence,
      page := 1, position := fullBox, warnings := ocr_result.warnings }
  let tableBlocks := env.imgTables.map (imgTableBlock 1)
  { blocks := textBlock :: tableBlocks, tables := env.imgTables,
    raw_text := raw_text, language := language,
    ocrUsed := ocr_result, easyCalls := step.2.2 }

/-- The TableData parser.py builds from one camelot dict (confidence default
85 through .get). -/
def camelotTd (ct : CamelotTable) : TableData :=
  { headers := ct.headers, rows := ct.rows,
    confidence := ct.confidence.getD 85 }

/-- The table block _parse_pdf_native appends for one camelot table, at the
camelot-reported page (default 1). -/
def camelotBlock (ct : CamelotTable) : ExtractionBlock :=
  { id := "uuid", type := "table", content := .table (camelotTd ct),
    source := "camelot", confidence := (camelotTd ct).confidence,
    page := ct.page.getD 1, position := fullBox }

/-- parser.py _parse_pdf_native: one Tika text block (confidence 95, page
1), one table block per camelot table at the camelot-reported page
(default 1), page count from Tika metadata (default 1). -/
def _parse_pdf_native (env : PdfNativeEnv) :
    List ExtractionBlock × List TableData × String × Option String × Int :=
  let raw_text := env.tika.text
  let page_count := env.tika.page_count.getD 1
  let language := detect_language raw_text
  let textBlock : ExtractionBlock :=
    { id := "uuid", type := "text", content := .text raw_text,
      source := "tika", confidence := 95, page := 1, position := fullBox }
  let tables := env.camelot.map camelotTd
  let tableBlocks := env.camelot.map camelotBlock
  (textBlock :: tableBlocks, tables, raw_text, language, page_count)

/-- Per-page output of the scanned-PDF loop body, instrumented like
ImageOut with the effective OCR dict and the fallback invocation count. -/
structure PageOut where
  pageText : String
  ocrUsed : OcrResult
  easyCalls : Nat
  textBlock : Option ExtractionBlock
  tableBlocks : List ExtractionBlock
  tables : List TableData
deriving DecidableEq

/-- The body of the page loop in _parse_pdf_scanned: OCR with confidence
fallback, a text block only when the page text is non-blank, one table
block per table found on the page. -/
def processScannedPage (page_num : Int) (pe : PageEnv) : PageOut :=
  let ocr0 := pe.tess
  let step :=
    if ocr0.confidence < 70 then
      let easy := pe.easy
      if easy.confidence > ocr0.confidence then (easy.text, easy, 1)
      else (ocr0.text, ocr0, 1)
    else (ocr0.text, ocr0, 0)
  let page_text := step.1
  let ocr_result := step.2.1
  let textBlock :=
    if pyStrip page_text = "" then none
    else some ({ id := "uuid", type := "text",
                 content := .text page_text,
                 source := ocr_result.source,
                 confidence := ocr_result.confidence,
                 page := page_num, position := fullBox,
                 warnings := ocr_result.warnings } : ExtractionBlock)
  let tableBlocks := pe.imgTables.map (imgTableBlock page_num)
  { pageText := page_text, ocrUsed := ocr_result, easyCalls := step.2.2,
    textBlock := textBlock, tableBlocks := tableBlocks, tables := pe.imgTables }

/-- The page loop of _parse_pdf_scanned: blocks, tables, the non-blank page
texts and the total fallback invocation count, pages numbered from
page_num upward. -/
def scannedLoop (page_num : Int) :
    List PageEnv → List ExtractionBlock × List TableData × List String × Nat
  | [] => ([], [], [], 0)
  | pe :: rest =>
    let po := processScannedPage page_num pe
    let acc := scannedLoop (page_num + 1) rest
    ((po.textBlock.toList ++ po.tableBlocks) ++ acc.1,
     po.tables ++ acc.2.1,
     (if pyStrip po.pageText = "" then [] else [po.pageText]) ++ acc.2.2.1,
     po.easyCalls + acc.2.2.2)

/-- parser.py _parse_pdf_scanned: rasterized pages are processed in order,
page texts join with a blank line, language comes from the joined text,
page count is the number of rasterized pages, and a zero-confidence
placeholder block is synthesized when the loop produced no blocks.  The
last component counts run_easyocr_fallback invocations. -/
def _parse_pdf_scanned (pages : List PageEnv) :
    List ExtractionBlock × List TableData × String × Option String × Int × Nat :=
  let page_count : Int := pages.length
  let acc := scannedLoop 1 pages
  let raw_text := pyJoin "\n\n" acc.2.2.1
  let language := detect_language raw_text
  let blocks :=
    if acc.1.isEmpty then
      [({ id := "uuid", type := "text", content := .text "",
          source := "tesseract", confidence := 0, page := 1,
          position := fullBox,
          warnings := ["No text could be extracted from this PDF"] }
        : ExtractionBlock)]
    else acc.1
  (blocks, acc.2.1, raw_text, language, page_count, acc.2.2.2)

/-- The table block _parse_docx appends for one XML-walk table (page 1). -/
def docxTableBlock (t : TableData) : ExtractionBlock :=
  { id := "uuid", type := "table", content := .table t,
    source := "tika", confidence := t.confidence,
    page := 1, position := fullBox }

/-- parser.py _parse_docx: one Tika text block (confidence 98, page 1), one
block per XML-walk table (page 1), page count fixed at 1. -/
def _parse_docx (env : DocxEnv) :
    List ExtractionBlock × List TableData × String × Option String × Int :=
  let raw_text := env.tika.text
  let language := detect_language raw_text
  let textBlock : ExtractionBlock :=
    { id := "uuid", type := "text", content := .text raw_text,
      source := "tika", confidence := 98, page := 1, position := fullBox }
  let tableBlocks := env.docxTables.map docxTableBlock
  (textBlock :: tableBlocks, env.docxTables, raw_text, language, 1)

/-- The enumerate loop of _parse_xlsx: one table block per sheet-table at
ascending pages starting from the given page. -/
def xlsxTableBlocks (page : Int) : List TableData → List ExtractionBlock
  | [] => []
  | t :: rest =>
    ({ id := "uuid", type := "table", content := .table t,
       source := "openpyxl", confidence := t.confidence,
       page := page, position := fullBox } : ExtractionBlock)
      :: xlsxTableBlocks (page + 1) rest

/-- parser.py _parse_xlsx: on a reader error, a single zero-confidence text
block carrying the error; otherwise an optional raw-text block
(confidence 98) followed by one table block per sheet-table, page_count
from the reader dict (default 1 when the key is absent). -/
def _parse_xlsx (wb : Except String (List Sheet)) :
    List ExtractionBlock × List TableData × String × Int :=
  let result := parse_xlsx wb
  let tables := result.tables
  let raw_text := result.raw_text
  let page_count := result.page_count.getD 1
  match result.error with
  | some e =>
    ([({ id := "uuid", type := "text", content := .text raw_text,
         source := "openpyxl", confidence := 0, page := 1,
         position := fullBox,
         warnings := ["Excel parse error: " ++ e] } : ExtractionBlock)],
     tables, raw_text, page_count)
  | none =>
    let textBlocks :=
      if raw_text = "" then []
      else [({ id := "uuid", type := "text", content := .text raw_text,
               source := "openpyxl", confidence := 98, page := 1,
               position := fullBox } : ExtractionBlock)]
    (textBlocks ++ xlsxTableBlocks 1 tables, tables, raw_text, page_count)

/-! ## parser.py parse_document -/

/-- All collaborator outcomes one parse_document call can consume, one field
per strategy. -/
structure Env where
  image : ImageEnv
  pdfNative : PdfNativeEnv
  pages : List PageEnv
  docx : DocxEnv
  xlsxWb : Except String (List Sheet)

/-- The response assembly at the end of parse_document: overall confidence
is the mean of the block confidences, 0 when there are none. -/
def buildResponse (blocks : List ExtractionBlock) (tables : List TableData)
    (raw_text : String) (language : Option String) (page_count : Int) :
    ParseResponse :=
  let confidences := blocks.map (fun b => b.confidence)
  let overall : ℚ :=
    if confidences.isEmpty then 0
    else confidences.sum / (confidences.length : ℚ)
  { blocks := blocks, raw_text := raw_text, tables := tables,
    overall_confidence := overall, language := language,
    page_count := page_count, processing_time_ms := 0 }

/-- parser.py parse_document: dispatch on the category string, then build
the response; unknown categories raise ValueError (modelled as the error
branch of Except). -/
def parse_document (env : Env) (doc_type : DocumentType) :
    Except String ParseResponse :=
  if doc_type.category = "image" then
    let o := _parse_image env.image
    .ok (buildResponse o.blocks o.tables o.raw_text o.language 1)
  else if doc_type.category = "pdf_native" then
    let r := _parse_pdf_native env.pdfNative
    .ok (buildResponse r.1 r.2.1 r.2.2.1 r.2.2.2.1 r.2.2.2.2)
  else if doc_type.category = "pdf_scanned" then
    let r := _parse_pdf_scanned env.pages
    .ok (buildResponse r.1 r.2.1 r.2.2.1 r.2.2.2.1 r.2.2.2.2.1)
  else if doc_type.category = "docx" then
    let r := _parse_docx env.docx
    .ok (buildResponse r.1 r.2.1 r.2.2.1 r.2.2.2.1 r.2.2.2.2)
  else if doc_type.category = "xlsx" then
    let r := _parse_xlsx env.xlsxWb
    .ok (buildResponse r.1 r.2.1 r.2.2.1 none r.2.2.2)
  else
    .error ("Unsupported document type: " ++ doc_type.category)

/-! ## Concrete sample inputs for witnesses and counterexamples -/

/-- A DocumentType the classifier produces for a PNG upload. -/
def imageDT : DocumentType :=
  { category := "image", mime_type := "image/png", extension := ".png" }

/-- A DocumentType for a text-bearing PDF. -/
def pdfNativeDT : DocumentType :=
  { category := "pdf_native", mime_type := "application/pdf",
    extension := ".pdf", has_text := true }

/-- A DocumentType for a scanned PDF. -/
def pdfScannedDT : DocumentType :=
  { category := "pdf_scanned", mime_type := "application/pdf",
    extension := ".pdf" }

/-- A DocumentType for a spreadsheet upload. -/
def xlsxDT : DocumentType :=
  { category := "xlsx", mime_type := "application/vnd.ms-excel",
    extension := ".xlsx", has_text := true }

/-- A fully neutral collaborator environment: blank OCR, no tables, no
rasterized pages, an empty workbook read without error. -/
def envBase : Env :=
  { image := { tess := { text := "", confidence := 0, source := "tesseract" },
               easy := { text := "", confidence := 0, source := "easyocr" },
               imgTables := [] },
    pdfNative := { tika := { text := "" }, camelot := [] },
    pages := [],
    docx := { tika := { text := "" }, docxTables := [] },
    xlsxWb := .ok [] }

/-- A text in which only the French diacritic set scores. -/
def frenchSample : String := "ééééé ééééé ééééé ééééé"

/-- A text in which only the German diacritic set scores. -/
def germanSample : String := "ööööö ööööö ööööö ööööö"

/-- Image environment where the primary OCR is low-confidence French-looking
text and the secondary OCR wins with German-looking text. -/
def envC5 : Env :=
  { envBase with image :=
    { tess := { text := frenchSample, confidence := 40, language := some "ron",
                source := "tesseract",
                warnings := ["Low OCR confidence — consider re-scanning at higher DPI"] },
      easy := { text := germanSample, confidence := 60, source := "easyocr" },
      imgTables := [] } }

/-- PDF-native environment where Tika reports no page count (so it defaults
to 1) while camelot reports a table on page 2. -/
def envC4 : Env :=
  { envBase with pdfNative :=
    { tika := { text := "" },
      camelot := [{ headers := ["h1"], rows := [["v1"]],
                    confidence := some 90, page := some 2 }] } }

/-- PDF bytes containing the page-type marker and the font marker but
neither text-operator marker. -/
def c3ContentTwoMarkers : List Nat := strBytes "%PDF-1.4 /Type /Page 0 R /Font 12"

/-- A worksheet with one header row and one data row. -/
def sheetSample : Sheet :=
  { name := "S1",
    rows := [[.cstr "a", .cstr "b"], [.cstr "c", .cstr "d"]],
    merged := [] }

/-- Environment whose workbook read one non-empty sheet. -/
def envSheet : Env := { envBase with xlsxWb := .ok [sheetSample] }

/-- Environment whose spreadsheet reader failed. -/
def envXlsxErr : Env := { envBase with xlsxWb := .error "bad zip" }

/-- One rasterized page whose primary OCR is confident. -/
def pageSample : PageEnv :=
  { tess := { text := "hello scanned page", confidence := 80,
              language := some "ron", source := "tesseract" },
    easy := { text := "", confidence := 0, source := "easyocr" },
    imgTables := [{ headers := ["c"], rows := [["1"]], confidence := 85 }] }

/-- Environment with a single rasterized scanned page. -/
def envScanned : Env := { envBase with pages := [pageSample] }

/-- The ParseResponse inside a successful parse_document outcome (a dummy
response for the error case, used only to state closed witness facts). -/
def respOf (env : Env) (dt : DocumentType) : ParseResponse :=
  match parse_document env dt with
  | .ok r => r
  | .error _ => { blocks := [], raw_text := "", tables := [],
                  overall_confidence := 0, page_count := 1,
                  processing_time_ms := 0 }

/-! ## Helper lemmas -/

/-- The assembled response's overall confidence is the mean of its own
blocks' confidences, 0 when there are none. -/
theorem buildResponse_mean (b : List ExtractionBlock) (t : List TableData)
    (s : String) (l : Option String) (pc : Int) :
    (buildResponse b t s l pc).overall_confidence =
      if (buildResponse b t s l pc).blocks = [] then 0
      else ((buildResponse b t s l pc).blocks.map (fun x => x.confidence)).sum /
        ((buildResponse b t s l pc).blocks.length : ℚ) := by
  cases b <;> simp [buildResponse]

/-! ## C1 -/

/-- C1: for every document on which parse_document returns a ParseResponse,
overall_confidence equals the arithmetic mean of block.confidence over
response.blocks, and equals 0 when blocks is empty. -/
theorem parse_overall_confidence_mean (env : Env) (dt : DocumentType)
    (r : ParseResponse) (h : parse_document env dt = .ok r) :
    r.overall_confidence =
      if r.blocks = [] then 0
      else (r.blocks.map (fun x => x.confidence)).sum / (r.blocks.length : ℚ) := by
  unfold parse_document at h
  split_ifs at h <;> (injection h with h; subst h; exact buildResponse_mean ..)

/-- Witness for C1 at the neutral image environment. -/
theorem parse_overall_confidence_mean_witness :
    (respOf envBase imageDT).overall_confidence =
      if (respOf envBase imageDT).blocks = [] then 0
      else ((respOf envBase imageDT).blocks.map (fun x => x.confidence)).sum /
        ((respOf envBase imageDT).blocks.length : ℚ) :=
  parse_overall_confidence_mean envBase imageDT (respOf envBase imageDT) rfl

/-! ## C2 -/

/-- C2: for every OCR attempt (the image strategy, and each page of the
scanned-PDF strategy): with primary confidence at least 70 the secondary
engine is never invoked and the primary result is used unchanged;
otherwise the secondary engine is invoked exactly once and its result
replaces the primary's exactly when its confidence is strictly greater,
the kept result (text, confidence, source, warnings) feeding the emitted
text. -/
theorem confidence_fallback_policy (env : ImageEnv) (pn : Int) (pe : PageEnv) :
    ((if 70 ≤ env.tess.confidence
      then (_parse_image env).ocrUsed = env.tess ∧ (_parse_image env).easyCalls = 0
      else (_parse_image env).easyCalls = 1 ∧
        (_parse_image env).ocrUsed =
          (if env.easy.confidence > env.tess.confidence then env.easy else env.tess))
     ∧ (_parse_image env).raw_text = (_parse_image env).ocrUsed.text
     ∧ (_parse_image env).blocks.head? = some
        { id := "uuid", type := "text",
          content := .text (_parse_image env).ocrUsed.text,
          source := (_parse_image env).ocrUsed.source,
          confidence := (_parse_image env).ocrUsed.confidence,
          page := 1, position := fullBox,
          warnings := (_parse_image env).ocrUsed.warnings })
    ∧ ((if 70 ≤ pe.tess.confidence
        then (processScannedPage pn pe).ocrUsed = pe.tess ∧
          (processScannedPage pn pe).easyCalls = 0
        else (processScannedPage pn pe).easyCalls = 1 ∧
          (processScannedPage pn pe).ocrUsed =
            (if pe.easy.confidence > pe.tess.confidence then pe.easy else pe.tess))
       ∧ (processScannedPage pn pe).pageText = (processScannedPage pn pe).ocrUsed.text) := by
  constructor
  · by_cases h : env.tess.confidence < 70
    · by_cases h2 : env.easy.confidence > env.tess.confidence <;>
        simp [_parse_image, h, h2, not_le.mpr h]
    · simp [_parse_image, h, not_lt.mp h]
  · by_cases h : pe.tess.confidence < 70
    · by_cases h2 : pe.easy.confidence > pe.tess.confidence <;>
        simp [processScannedPage, h, h2, not_le.mpr h]
    · simp [processScannedPage, h, not_lt.mp h]

/-! ## C3 -/

/-- Counterexample to C3: with just the page-type marker and the font
marker present (and no text-operator marker), "report.PDF" classifies as
pdf_native, not pdf_scanned, because two markers already reach the
threshold. -/
theorem report_pdf_two_markers_counterexample :
    (detect_document_type c3ContentTwoMarkers "report.PDF" "" none).category = "pdf_native"
    ∧ ¬ (detect_document_type c3ContentTwoMarkers "report.PDF" "" none).category = "pdf_scanned" := by
  decide

/-- C3 amended: whenever the page-type marker and the font-resource marker
both occur in the first 50000 content bytes, "report.PDF" classifies as
pdf_native — with or without the text-operator markers (so in particular
the all-four-markers case is also pdf_native). -/
theorem report_pdf_marker_threshold (content : List Nat) (ct : String)
    (g : Option String)
    (h1 : isInfixList (strBytes "/Type /Page") (content.take 50000) = true)
    (h4 : isInfixList (strBytes "/Font") (content.take 50000) = true) :
    (detect_document_type content "report.PDF" ct g).category = "pdf_native" := by
  have hpdf : _pdf_has_selectable_text content = true := by
    simp only [_pdf_has_selectable_text, textMarkers, List.map_cons, List.map_nil,
      List.sum_cons, List.sum_nil, h1, h4, if_true, decide_eq_true_eq]
    split_ifs <;> omega
  have he : fileExt "report.PDF" = ".pdf" := by decide
  simp [detect_document_type, he, hpdf,
    (by decide : ".pdf" ∉ IMAGE_EXTENSIONS),
    (by decide : ".pdf" ∈ PDF_EXTENSIONS)]

/-- Witness for the amended C3 at the concrete two-marker content. -/
theorem report_pdf_marker_threshold_witness :
    (detect_document_type c3ContentTwoMarkers "report.PDF" "" none).category = "pdf_native" :=
  report_pdf_marker_threshold c3ContentTwoMarkers "" none (by decide) (by decide)

/-! ## C5 -/

/-- Counterexample to C5: with primary OCR at confidence 40 over
French-scoring text and secondary OCR at confidence 60 over
German-scoring text, the secondary result is adopted (raw_text is the
German text) yet the response language is fra — the heuristic over the
primary text — while the claim demands the heuristic over the effective
post-fallback text, deu. -/
theorem image_language_counterexample :
    (parse_document envC5 imageDT).map (fun r => (r.language, r.raw_text)) =
      Except.ok (some "fra", germanSample)
    ∧ (detect_language germanSample <|> envC5.image.easy.language) = some "deu" :=
  ⟨rfl, by decide⟩

/-- C5 amended: for every image document, the returned language equals the
language heuristic applied to the primary OCR text (computed before the
confidence fallback runs), falling back to the primary engine's own
language tag when the heuristic returns nothing. -/
theorem image_language_from_primary (env : Env) (dt : DocumentType)
    (r : ParseResponse) (hcat : dt.category = "image")
    (h : parse_document env dt = .ok r) :
    r.language = (detect_language env.image.tess.text <|> env.image.tess.language) := by
  simp only [parse_document, hcat, if_true] at h
  injection h with h
  subst h
  simp [_parse_image, buildResponse]

/-- Witness for the amended C5 at the concrete fallback environment. -/
theorem image_language_from_primary_witness :
    (respOf envC5 imageDT).language =
      (detect_language envC5.image.tess.text <|> envC5.image.tess.language) :=
  image_language_from_primary envC5 imageDT (respOf envC5 imageDT) rfl rfl

/-! ## C10 -/

/-- C10: detect_language never returns the default fallback tag eng: its
result is always none, ron, fra or deu, since eng scores 0, ron precedes
it with a non-negative score, and sub-3 winners are overridden to ron. -/
theorem detect_language_never_eng (s : String) :
    detect_language s = none ∨ detect_language s = some "ron" ∨
    detect_language s = some "fra" ∨ detect_language s = some "deu" := by
  unfold detect_language
  split
  · exact Or.inl rfl
  · simp only [maxKey]
    split_ifs <;> simp_all

/-! ## Further helper lemmas -/

/-- The xlsx enumerate loop yields no blocks exactly for no tables. -/
theorem xlsxTableBlocks_eq_nil (k : Int) (ts : List TableData) :
    xlsxTableBlocks k ts = [] ↔ ts = [] := by
  cases ts <;> simp [xlsxTableBlocks]

/-- The scanned-PDF strategy never returns an empty block list. -/
theorem scanned_blocks_ne_nil (pages : List PageEnv) :
    (_parse_pdf_scanned pages).1 ≠ [] := by
  simp only [_parse_pdf_scanned]
  split_ifs with hi
  · simp
  · simpa [List.isEmpty_iff] using hi

/-- A workbook fold with no tables also produced no raw-text lines. -/
theorem xlsxFold_lines_nil :
    ∀ sheets : List Sheet,
      (xlsxSheetsFold sheets).1 = [] → (xlsxSheetsFold sheets).2 = []
  | [] => fun _ => rfl
  | s :: rest => by
    simp only [xlsxSheetsFold]
    split_ifs with hr
    · exact xlsxFold_lines_nil rest
    · intro h
      simp at h

/-! ## C6 -/

/-- Counterexample to C6: an xlsx document whose reader succeeds with zero
sheet-tables gets page_count 0, not the claimed 1-by-convention. -/
theorem xlsx_zero_sheets_page_count_counterexample :
    (parse_document envBase xlsxDT).map (fun r => (r.tables.length, r.page_count)) =
      Except.ok (0, 0) := rfl

/-- C6 amended: for every xlsx document the reader processes without fatal
error, page_count equals the number of sheet-tables produced — including
0 when zero sheet-tables were read (no minimum-1 convention; only the
error path defaults page_count to 1). -/
theorem xlsx_page_count_eq_tables (env : Env) (dt : DocumentType)
    (r : ParseResponse) (sheets : List Sheet) (hcat : dt.category = "xlsx")
    (hwb : env.xlsxWb = .ok sheets) (h : parse_document env dt = .ok r) :
    r.page_count = r.tables.length := by
  simp only [parse_document, hcat] at h
  norm_num at h
  injection h with h
  subst h
  simp [buildResponse, _parse_xlsx, parse_xlsx, hwb]

/-- Witness for the amended C6 at a one-sheet workbook. -/
theorem xlsx_page_count_eq_tables_witness :
    (respOf envSheet xlsxDT).page_count = (respOf envSheet xlsxDT).tables.length :=
  xlsx_page_count_eq_tables envSheet xlsxDT (respOf envSheet xlsxDT)
    [sheetSample] rfl rfl rfl

/-! ## C7 -/

/-- Counterexample to C7: an xlsx upload whose reader succeeds with zero
sheet-tables yields a fully silent empty success — a ParseResponse with
no blocks, no tables, no raw text and no warning anywhere. -/
theorem xlsx_empty_success_counterexample :
    parse_document envBase xlsxDT = Except.ok
      { blocks := [], raw_text := "", tables := [], overall_confidence := 0,
        language := none, page_count := 0, processing_time_ms := 0 } := rfl

/-- C7 amended: whenever parse_document returns a ParseResponse, blocks is
non-empty except in exactly one case — an xlsx document whose reader
succeeded with zero sheet-tables (then tables is empty too); a failed
xlsx read still yields a zero-confidence block with a warning. -/
theorem response_never_silent_empty (env : Env) (dt : DocumentType)
    (r : ParseResponse) (h : parse_document env dt = .ok r) :
    (r.blocks = [] → dt.category = "xlsx" ∧ r.tables = [] ∧
      ∃ sheets, env.xlsxWb = Except.ok sheets)
    ∧ (∀ e, env.xlsxWb = .error e → dt.category = "xlsx" →
        ∃ b ∈ r.blocks, b.confidence = 0 ∧ b.warnings ≠ []) := by
  unfold parse_document at h
  split_ifs at h with h1 h2 h3 h4 h5 <;> (injection h with h; subst h)
  · refine ⟨fun habs => ?_, fun e he hx => absurd (h1.symm.trans hx) (by decide)⟩
    simp [buildResponse, _parse_image] at habs
  · refine ⟨fun habs => ?_, fun e he hx => absurd (h2.symm.trans hx) (by decide)⟩
    simp [buildResponse, _parse_pdf_native] at habs
  · refine ⟨fun habs => ?_, fun e he hx => absurd (h3.symm.trans hx) (by decide)⟩
    exact absurd habs (scanned_blocks_ne_nil env.pages)
  · refine ⟨fun habs => ?_, fun e he hx => absurd (h4.symm.trans hx) (by decide)⟩
    simp [buildResponse, _parse_docx] at habs
  · cases hwb : env.xlsxWb with
    | error e =>
      refine ⟨fun habs => ?_, fun e' he' hx => ?_⟩
      · simp [buildResponse, _parse_xlsx, parse_xlsx, hwb] at habs
      · refine ⟨({ id := "uuid", type := "text",
                   content := .text ("[Excel parse error: " ++ e ++ "]"),
                   source := "openpyxl", confidence := 0, page := 1,
                   position := fullBox,
                   warnings := ["Excel parse error: " ++ e] } : ExtractionBlock),
                 ?_, ?_, ?_⟩
        · simp [buildResponse, _parse_xlsx, parse_xlsx, hwb]
        · rfl
        · simp
    | ok sheets =>
      refine ⟨fun habs => ?_, fun e' he' hx => ?_⟩
      · simp only [buildResponse, _parse_xlsx, parse_xlsx, hwb] at habs ⊢
        simp only [List.append_eq_nil] at habs
        refine ⟨h5, ?_, ⟨sheets, rfl⟩⟩
        have := (xlsxTableBlocks_eq_nil 1 _).mp habs.2
        simpa using this
      · exact absurd he' (by simp)

/-- Witness for the amended C7 at the empty-workbook environment. -/
theorem response_never_silent_empty_witness :
    ((respOf envBase xlsxDT).blocks = [] → xlsxDT.category = "xlsx" ∧
      (respOf envBase xlsxDT).tables = [] ∧
      ∃ sheets, envBase.xlsxWb = Except.ok sheets)
    ∧ (∀ e, envBase.xlsxWb = .error e → xlsxDT.category = "xlsx" →
        ∃ b ∈ (respOf envBase xlsxDT).blocks, b.confidence = 0 ∧ b.warnings ≠ []) :=
  response_never_silent_empty envBase xlsxDT (respOf envBase xlsxDT) rfl

/-! ## C8 -/

/-- C8: for every pdf-scanned document, response.blocks is non-empty, and
when the page loop produced zero blocks the response is exactly the
synthesized page-1 empty text block with confidence 0 and the
nothing-could-be-extracted warning. -/
theorem scanned_placeholder_guarantee (env : Env) (dt : DocumentType)
    (r : ParseResponse) (hcat : dt.category = "pdf_scanned")
    (h : parse_document env dt = .ok r) :
    r.blocks ≠ [] ∧
    ((scannedLoop 1 env.pages).1 = [] →
      r.blocks = [{ id := "uuid", type := "text", content := .text "",
                    source := "tesseract", confidence := 0, page := 1,
                    position := fullBox,
                    warnings := ["No text could be extracted from this PDF"] }]) := by
  simp only [parse_document, hcat] at h
  norm_num at h
  injection h with h
  subst h
  refine ⟨scanned_blocks_ne_nil env.pages, fun hnil => ?_⟩
  simp [buildResponse, _parse_pdf_scanned, hnil]

/-- Witness for C8 at the zero-page environment (placeholder case). -/
theorem scanned_placeholder_guarantee_witness :
    (respOf envBase pdfScannedDT).blocks ≠ [] ∧
    ((scannedLoop 1 envBase.pages).1 = [] →
      (respOf envBase pdfScannedDT).blocks =
        [{ id := "uuid", type := "text", content := .text "",
           source := "tesseract", confidence := 0, page := 1,
           position := fullBox,
           warnings := ["No text could be extracted from this PDF"] }]) :=
  scanned_placeholder_guarantee envBase pdfScannedDT (respOf envBase pdfScannedDT)
    rfl rfl

/-! ## Table-block counting lemmas -/

/-- Mapping a table-typed block builder over a list and filtering for table
blocks keeps every element. -/
theorem length_filter_table_map {α : Type} (f : α → ExtractionBlock)
    (hf : ∀ a, (f a).type = "table") :
    ∀ l : List α,
      ((l.map f).filter (fun b => b.type = "table")).length = l.length
  | [] => rfl
  | a :: t => by
    simp [List.filter_cons, hf, length_filter_table_map f hf t]

/-- The optional per-page text block never survives the table filter. -/
theorem processScannedPage_textBlock_filter (k : Int) (pe : PageEnv) :
    (processScannedPage k pe).textBlock.toList.filter
      (fun b => b.type = "table") = [] := by
  simp only [processScannedPage]
  split_ifs <;> simp

/-- Along the scanned-page loop, accumulated tables correspond one-to-one
with accumulated table-typed blocks. -/
theorem scannedLoop_tables_len :
    ∀ (pages : List PageEnv) (k : Int),
      (scannedLoop k pages).2.1.length =
        ((scannedLoop k pages).1.filter (fun b => b.type = "table")).length
  | [], _ => rfl
  | pe :: rest, k => by
    simp only [scannedLoop, List.filter_append, List.length_append,
      processScannedPage_textBlock_filter]
    rw [show (processScannedPage k pe).tableBlocks =
          pe.imgTables.map (imgTableBlock k) from rfl,
        show (processScannedPage k pe).tables = pe.imgTables from rfl,
        length_filter_table_map (imgTableBlock k) (fun t => rfl),
        scannedLoop_tables_len rest (k + 1)]
    simp

/-- The xlsx enumerate loop emits exactly one table-typed block per table. -/
theorem xlsxTableBlocks_filter_len :
    ∀ (k : Int) (ts : List TableData),
      ((xlsxTableBlocks k ts).filter (fun b => b.type = "table")).length = ts.length
  | _, [] => rfl
  | k, t :: rest => by
    simp [xlsxTableBlocks, List.filter_cons, xlsxTableBlocks_filter_len (k + 1) rest]

/-! ## C9 -/

/-- C9: for every document on which parse_document returns a ParseResponse,
the length of the tables list equals the number of blocks whose kind is
table. -/
theorem tables_match_table_blocks (env : Env) (dt : DocumentType)
    (r : ParseResponse) (h : parse_document env dt = .ok r) :
    r.tables.length = (r.blocks.filter (fun b => b.type = "table")).length := by
  unfold parse_document at h
  split_ifs at h <;> (injection h with h; subst h) <;> simp only [buildResponse]
  · simp [_parse_image, List.filter_cons,
      length_filter_table_map (imgTableBlock 1) (fun t => rfl)]
  · simp [_parse_pdf_native, List.filter_cons,
      length_filter_table_map camelotBlock (fun t => rfl)]
  · simp only [_parse_pdf_scanned]
    split_ifs with hi
    · rw [List.isEmpty_iff] at hi
      have h0 := scannedLoop_tables_len env.pages 1
      rw [hi] at h0
      simpa using h0
    · exact scannedLoop_tables_len env.pages 1
  · simp [_parse_docx, List.filter_cons,
      length_filter_table_map docxTableBlock (fun t => rfl)]
  · cases hwb : env.xlsxWb with
    | error e => simp [_parse_xlsx, parse_xlsx, hwb, List.filter_cons]
    | ok sheets =>
      simp only [_parse_xlsx, parse_xlsx, hwb]
      split_ifs <;>
        simp [List.filter_append, List.filter_cons, xlsxTableBlocks_filter_len]

/-- Witness for C9 at an environment with one scanned page bearing a table. -/
theorem tables_match_table_blocks_witness :
    (respOf envScanned pdfScannedDT).tables.length =
      ((respOf envScanned pdfScannedDT).blocks.filter
        (fun b => b.type = "table")).length :=
  tables_match_table_blocks envScanned pdfScannedDT
    (respOf envScanned pdfScannedDT) rfl

/-! ## Page-bound lemmas -/

/-- Every block the image strategy emits carries page 1. -/
theorem parse_image_block_pages (ie : ImageEnv) :
    ∀ b ∈ (_parse_image ie).blocks, b.page = 1 := by
  intro b hb
  simp only [_parse_image, List.mem_cons, List.mem_map] at hb
  rcases hb with rfl | ⟨t, _, rfl⟩ <;> rfl

/-- Every block the docx strategy emits carries page 1. -/
theorem parse_docx_block_pages (de : DocxEnv) :
    ∀ b ∈ (_parse_docx de).1, b.page = 1 := by
  intro b hb
  simp only [_parse_docx, List.mem_cons, List.mem_map] at hb
  rcases hb with rfl | ⟨t, _, rfl⟩ <;> rfl

/-- With positive camelot page reports, every pdf-native block has a
positive page. -/
theorem parse_pdf_native_block_pages (pe : PdfNativeEnv)
    (hcam : ∀ ct ∈ pe.camelot, 1 ≤ ct.page.getD 1) :
    ∀ b ∈ (_parse_pdf_native pe).1, 1 ≤ b.page := by
  intro b hb
  simp only [_parse_pdf_native, List.mem_cons, List.mem_map] at hb
  rcases hb with rfl | ⟨ct, hct, rfl⟩
  · exact le_refl 1
  · exact hcam ct hct

/-- Pages of blocks accumulated by the scanned loop starting at page k stay
within the processed-page window. -/
theorem scannedLoop_page_bounds :
    ∀ (pages : List PageEnv) (k : Int) (b : ExtractionBlock),
      b ∈ (scannedLoop k pages).1 → k ≤ b.page ∧ b.page < k + pages.length
  | [], _, b => by simp [scannedLoop]
  | pe :: rest, k, b => by
    intro hmem
    simp only [scannedLoop, List.mem_append] at hmem
    rcases hmem with (h1 | h1) | h2
    · have : b.page = k := by
        revert h1
        simp only [processScannedPage]
        split_ifs <;> simp <;> rintro rfl <;> rfl
      simp only [this, List.length_cons]
      constructor
      · exact le_refl k
      · omega
    · have : b.page = k := by
        rcases List.mem_map.mp h1 with ⟨t, _, rfl⟩
        rfl
      simp only [this, List.length_cons]
      constructor
      · exact le_refl k
      · omega
    · have := scannedLoop_page_bounds rest (k + 1) b h2
      simp only [List.length_cons]
      omega

/-- Pages of the xlsx enumerate loop starting at page k stay within the
table-count window. -/
theorem xlsxTableBlocks_page_bounds :
    ∀ (ts : List TableData) (k : Int) (b : ExtractionBlock),
      b ∈ xlsxTableBlocks k ts → k ≤ b.page ∧ b.page < k + ts.length
  | [], _, b => by simp [xlsxTableBlocks]
  | t :: rest, k, b => by
    intro hmem
    simp only [xlsxTableBlocks, List.mem_cons] at hmem
    rcases hmem with rfl | h2
    · simp only [List.length_cons]
      constructor
      · exact le_refl k
      · omega
    · have := xlsxTableBlocks_page_bounds rest (k + 1) b h2
      simp only [List.length_cons]
      omega

/-- Scanned-PDF blocks have positive pages, bounded by the page count
whenever at least one page was rasterized. -/
theorem parse_pdf_scanned_pages_bounds (pages : List PageEnv) :
    ∀ b ∈ (_parse_pdf_scanned pages).1,
      1 ≤ b.page ∧ (pages ≠ [] → b.page ≤ (pages.length : Int)) := by
  intro b hb
  simp only [_parse_pdf_scanned] at hb
  split_ifs at hb with hi
  · simp only [List.mem_singleton] at hb
    subst hb
    refine ⟨le_refl 1, fun hne => ?_⟩
    have hp : 0 < pages.length := List.length_pos.mpr hne
    show (1 : Int) ≤ (pages.length : Int)
    omega
  · have := scannedLoop_page_bounds pages 1 b hb
    refine ⟨this.1, fun _ => ?_⟩
    omega

/-- A non-blank joined workbook text needs at least one sheet-table. -/
theorem xlsxFold_join_ne_imp (sheets : List Sheet)
    (h : pyJoin "\n" (xlsxSheetsFold sheets).2 ≠ "") :
    (xlsxSheetsFold sheets).1 ≠ [] := by
  intro hnil
  rw [xlsxFold_lines_nil sheets hnil] at h
  exact h rfl

/-- Every xlsx-strategy block has a positive page bounded by the strategy's
reported page count. -/
theorem parse_xlsx_block_pages (wb : Except String (List Sheet)) :
    ∀ b ∈ (_parse_xlsx wb).1, 1 ≤ b.page ∧ b.page ≤ (_parse_xlsx wb).2.2.2 := by
  intro b hb
  cases wb with
  | error e =>
    simp only [_parse_xlsx, parse_xlsx, List.mem_singleton] at hb ⊢
    subst hb
    exact ⟨le_refl 1, le_refl 1⟩
  | ok sheets =>
    simp only [_parse_xlsx, parse_xlsx, List.mem_append] at hb ⊢
    rcases hb with h1 | h2
    · split_ifs at h1 with hraw
      · exact absurd h1 (List.not_mem_nil b)
      · simp only [List.mem_singleton] at h1
        subst h1
        refine ⟨le_refl 1, ?_⟩
        have hne := xlsxFold_join_ne_imp sheets hraw
        have hp : 0 < (xlsxSheetsFold sheets).1.length := List.length_pos.mpr hne
        simp only [Option.getD_some]
        show (1 : Int) ≤ ((xlsxSheetsFold sheets).1.length : Int)
        omega
    · have := xlsxTableBlocks_page_bounds (xlsxSheetsFold sheets).1 1 b h2
      simp only [Option.getD_some]
      omega

/-! ## C4 -/

/-- Counterexample to C4: a pdf-native document where Tika reports no page
count (so page_count defaults to 1) while camelot reports its table on
page 2 — the emitted table block's page exceeds page_count. -/
theorem c4_counterexample :
    (parse_document envC4 pdfNativeDT).map
      (fun r => (r.page_count, r.blocks.map (fun b => b.page),
        decide (∀ b ∈ r.blocks, b.page ≤ r.page_count))) =
      Except.ok (1, [1, 2], false) := rfl

/-- C4 amended: every block's page is positive provided the native-PDF
table extractor reports positive pages; for pdf-scanned documents with at
least one rasterized page and for xlsx documents every block's page is at
most page_count; for image and docx documents every block's page equals
1.  For pdf-native, table-block pages come straight from the extractor
and are not bounded by the Tika-derived page_count. -/
theorem block_page_invariant (env : Env) (dt : DocumentType)
    (r : ParseResponse) (h : parse_document env dt = .ok r)
    (hcam : ∀ ct ∈ env.pdfNative.camelot, 1 ≤ ct.page.getD 1) :
    (∀ b ∈ r.blocks, 1 ≤ b.page)
    ∧ (dt.category = "pdf_scanned" → env.pages ≠ [] →
        ∀ b ∈ r.blocks, b.page ≤ r.page_count)
    ∧ (dt.category = "xlsx" → ∀ b ∈ r.blocks, b.page ≤ r.page_count)
    ∧ ((dt.category = "image" ∨ dt.category = "docx") →
        ∀ b ∈ r.blocks, b.page = 1) := by
  unfold parse_document at h
  split_ifs at h with h1 h2 h3 h4 h5 <;> (injection h with h; subst h) <;>
    simp only [buildResponse]
  · refine ⟨?_, ?_, ?_, ?_⟩
    · intro b hb
      exact le_of_eq (parse_image_block_pages env.image b hb).symm
    · intro hc
      exact absurd (h1.symm.trans hc) (by decide)
    · intro hc
      exact absurd (h1.symm.trans hc) (by decide)
    · intro _ b hb
      exact parse_image_block_pages env.image b hb
  · refine ⟨parse_pdf_native_block_pages env.pdfNative hcam, ?_, ?_, ?_⟩
    · intro hc
      exact absurd (h2.symm.trans hc) (by decide)
    · intro hc
      exact absurd (h2.symm.trans hc) (by decide)
    · intro hc
      rcases hc with hc | hc <;> exact absurd (h2.symm.trans hc) (by decide)
  · refine ⟨?_, ?_, ?_, ?_⟩
    · intro b hb
      exact (parse_pdf_scanned_pages_bounds env.pages b hb).1
    · intro _ hne b hb
      exact (parse_pdf_scanned_pages_bounds env.pages b hb).2 hne
    · intro hc
      exact absurd (h3.symm.trans hc) (by decide)
    · intro hc
      rcases hc with hc | hc <;> exact absurd (h3.symm.trans hc) (by decide)
  · refine ⟨?_, ?_, ?_, ?_⟩
    · intro b hb
      exact le_of_eq (parse_docx_block_pages env.docx b hb).symm
    · intro hc
      exact absurd (h4.symm.trans hc) (by decide)
    · intro hc
      exact absurd (h4.symm.trans hc) (by decide)
    · intro _ b hb
      exact parse_docx_block_pages env.docx b hb
  · refine ⟨?_, ?_, ?_, ?_⟩
    · intro b hb
      exact (parse_xlsx_block_pages env.xlsxWb b hb).1
    · intro hc
      exact absurd (h5.symm.trans hc) (by decide)
    · intro _ b hb
      exact (parse_xlsx_block_pages env.xlsxWb b hb).2
    · intro hc
      rcases hc with hc | hc <;> exact absurd (h5.symm.trans hc) (by decide)

/-- Witness for the amended C4 at a one-page scanned document. -/
theorem block_page_invariant_witness :
    (∀ b ∈ (respOf envScanned pdfScannedDT).blocks, 1 ≤ b.page)
    ∧ (pdfScannedDT.category = "pdf_scanned" → envScanned.pages ≠ [] →
        ∀ b ∈ (respOf envScanned pdfScannedDT).blocks,
          b.page ≤ (respOf envScanned pdfScannedDT).page_count)
    ∧ (pdfScannedDT.category = "xlsx" →
        ∀ b ∈ (respOf envScanned pdfScannedDT).blocks,
          b.page ≤ (respOf envScanned pdfScannedDT).page_count)
    ∧ ((pdfScannedDT.category = "image" ∨ pdfScannedDT.category = "docx") →
        ∀ b ∈ (respOf envScanned pdfScannedDT).blocks, b.page = 1) :=
  block_page_invariant envScanned pdfScannedDT (respOf envScanned pdfScannedDT)
    rfl (by decide)

end DocFides
